import Mathlib

/-!
Verification development for the StratoCore_RATS flight controller.

Source files embedded here:
  src/src/StratoRats.h   — constants, action enum, class-scope FLStates_t, state fields
  src/src/Flight.cpp     — file-scope FLStates_t, StratoRATS::FlightMode, StratoRATS::ManualFlight
  src/src/TCHandler.cpp  — StratoRATS::TCHandler

External collaborators (StratoCore framework, scheduler, LoRa driver, MCB link)
are represented only through their documented contracts; each such definition
carries a doc comment saying what it models.
-/

/-- Base sub-state constant supplied by the external StratoCore framework.
Modelled from the spec: the mode-specific sub-states count up from MODE_ENTRY,
and MODE_ERROR, MODE_SHUTDOWN, MODE_EXIT are distinct values outside that run.
Only distinctness and the offsets from MODE_ENTRY matter to any claim. -/
def MODE_ENTRY : Nat := 0

/-- Base error sub-state constant from the external StratoCore framework. -/
def MODE_ERROR : Nat := 253

/-- Base shutdown sub-state constant from the external StratoCore framework. -/
def MODE_SHUTDOWN : Nat := 254

/-- Base exit sub-state constant from the external StratoCore framework. -/
def MODE_EXIT : Nat := 255

/-- Number of LoRa messages to wait for before moving on (StratoRats.h line 49). -/
def LORA_MSG_COUNT : Nat := 3

/-- Seconds to wait for all LoRa messages during warmup (StratoRats.h line 51). -/
def LORA_WARMUP_MSG_TIMEOUT : Nat := 15

/-- Number of loops before a flag becomes stale and is reset (StratoRats.h line 60). -/
def FLAG_STALE : Nat := 3

/-- MCB resend timeout in seconds (StratoRats.h line 62). -/
def MCB_RESEND_TIMEOUT : Nat := 10

/-- Zephyr resend timeout in seconds (StratoRats.h line 68). -/
def ZEPHYR_RESEND_TIMEOUT : Nat := 60

/-- RATSReport reporting period in seconds (StratoRats.h line 20). -/
def RATS_REPORT_PERIOD_SECS : Nat := 360

/-- Number of ECU reports that triggers a RATSReport (StratoRats.h line 24). -/
def NUM_ECU_REPORTS : Nat := 180

/-- Size in bytes of the serialized RATS report header (StratoRats.h line 110). -/
def RATS_HEADER_SIZE_BYTES : Nat := 7

/-- Maximum size of a RATS report in bytes, as a function of the ECU record size
ECU_REPORT_SIZE_BYTES, which is defined in ECUReport.h (not under src/):
RATS_REPORT_MAX_BYTES = RATS_HEADER_SIZE_BYTES + (NUM_ECU_REPORTS+1)*ECU_REPORT_SIZE_BYTES
(StratoRats.h line 27). -/
def RATS_REPORT_MAX_BYTES (ecuReportSizeBytes : Nat) : Nat :=
  RATS_HEADER_SIZE_BYTES + (NUM_ECU_REPORTS + 1) * ecuReportSizeBytes

/-- Compile-time guard at StratoRats.h lines 30-35: the preprocessor refuses the
build (#error) when RATS_REPORT_MAX_BYTES > 8192, so this returns true exactly
for the ECU record sizes that compile. -/
def ratsReportSizeGuard (ecuReportSizeBytes : Nat) : Bool :=
  RATS_REPORT_MAX_BYTES ecuReportSizeBytes ≤ 8192

namespace FlightCpp

/-! Enumerator values of the file-scope `enum FLStates_t : uint8_t` declared at
Flight.cpp lines 3-19. These are the values the comments and case structure of
FlightMode intend. Note that inside the member function StratoRATS::FlightMode,
C++ unqualified lookup would actually select the class-scope FLStates_t from
StratoRats.h for the names it also declares (FL_ENTRY, FL_GPS_WAIT, FL_MEASURE,
FL_ERROR, FL_SHUTDOWN, FL_EXIT), which gives FL_MEASURE the value MODE_ENTRY+3
and makes the switch ill-formed (duplicate case label with FL_CONFIG_ECU); the
discrepancy is settled in claim C1. -/

/-- FL_ENTRY from Flight.cpp line 4. -/
def FL_ENTRY : Nat := MODE_ENTRY

/-- FL_GPS_WAIT from Flight.cpp line 6. -/
def FL_GPS_WAIT : Nat := MODE_ENTRY + 1

/-- FL_LORA_WAIT1 from Flight.cpp line 7. -/
def FL_LORA_WAIT1 : Nat := MODE_ENTRY + 2

/-- FL_CONFIG_ECU from Flight.cpp line 8. -/
def FL_CONFIG_ECU : Nat := MODE_ENTRY + 3

/-- FL_LORA_WAIT2 from Flight.cpp line 9. -/
def FL_LORA_WAIT2 : Nat := MODE_ENTRY + 4

/-- FL_MEASURE from Flight.cpp line 10. -/
def FL_MEASURE : Nat := MODE_ENTRY + 5

/-- FL_SEND_TELEMETRY from Flight.cpp line 11. -/
def FL_SEND_TELEMETRY : Nat := MODE_ENTRY + 6

/-- FLM_IDLE from Flight.cpp line 13. -/
def FLM_IDLE : Nat := MODE_ENTRY + 7

/-- FLM_MANUAL_MOTION from Flight.cpp line 14. -/
def FLM_MANUAL_MOTION : Nat := MODE_ENTRY + 8

/-- FL_ERROR from Flight.cpp line 16. -/
def FL_ERROR : Nat := MODE_ERROR

/-- FL_SHUTDOWN from Flight.cpp line 17. -/
def FL_SHUTDOWN : Nat := MODE_SHUTDOWN

/-- FL_EXIT from Flight.cpp line 18. -/
def FL_EXIT : Nat := MODE_EXIT

end FlightCpp

namespace StratoRatsH

/-! Enumerator values of the class-scope `enum FLStates_t : uint8_t` declared at
StratoRats.h lines 169-178 ("Moved from Flight.cpp to here so that TCHandler()
can use them to vet TCs"). This is the enum that unqualified lookup selects
inside TCHandler, and its FL_MEASURE has a different value from the FL_MEASURE
of the Flight.cpp file-scope enum. -/

/-- FL_ENTRY from StratoRats.h line 170. -/
def FL_ENTRY : Nat := MODE_ENTRY

/-- FL_GPS_WAIT from StratoRats.h line 171. -/
def FL_GPS_WAIT : Nat := MODE_ENTRY + 1

/-- FL_WARMUP from StratoRats.h line 172. -/
def FL_WARMUP : Nat := MODE_ENTRY + 2

/-- FL_MEASURE from StratoRats.h line 173: the value TCHandler compares
inst_substate against. -/
def FL_MEASURE : Nat := MODE_ENTRY + 3

/-- FL_REEL from StratoRats.h line 174. -/
def FL_REEL : Nat := MODE_ENTRY + 4

end StratoRatsH

/-- Scheduled-action identifiers. The enum ScheduleAction_t in StratoRats.h
lines 71-92 declares NO_ACTION through ACTION_MOTION_TIMEOUT; Flight.cpp also
uses ACTION_SEND_STATUS, ACTION_SIM_LORA_MSG and ACTION_LORA_WAIT_MSG, which
that snapshot of the header does not declare but the spec (section 6) lists
among the scheduled actions, so they are included here. Only the identities of
the actions matter, not their numeric positions. -/
inductive ScheduleAction where
  | NO_ACTION
  | SEND_IMR
  | RESEND_RA
  | RESEND_MOTION_COMMAND
  | RESEND_TM
  | RESEND_SAFETY
  | ACTION_SEND_STATUS
  | ACTION_SIM_LORA_MSG
  | ACTION_LORA_WAIT_MSG
  | ACTION_START_TELEMETRY
  | ACTION_GPS_WAIT_MSG
  | ACTION_LORA_COUNT_MSGS
  | ACTION_RATS_REPORT
  | ACTION_REEL_OUT
  | ACTION_REEL_IN
  | ACTION_IN_NO_LW
  | ACTION_MOTION_STOP
  | ACTION_MOTION_TIMEOUT
  deriving DecidableEq, Repr

export ScheduleAction (ACTION_SEND_STATUS ACTION_SIM_LORA_MSG ACTION_LORA_WAIT_MSG
  ACTION_START_TELEMETRY ACTION_GPS_WAIT_MSG ACTION_LORA_COUNT_MSGS ACTION_RATS_REPORT
  ACTION_REEL_OUT ACTION_REEL_IN ACTION_IN_NO_LW ACTION_MOTION_STOP ACTION_MOTION_TIMEOUT)

/-- Motion kinds, enum MCBMotion_t from StratoRats.h lines 94-99. -/
inductive MCBMotion_t where
  | NO_MOTION
  | MOTION_REEL_IN
  | MOTION_REEL_OUT
  | MOTION_IN_NO_LW
  deriving DecidableEq, Repr

export MCBMotion_t (NO_MOTION MOTION_REEL_IN MOTION_REEL_OUT MOTION_IN_NO_LW)

/-- Log levels used by TCHandler.cpp (LOG_LEVEL_t values that appear in the
source: LOG_DEBUG, LOG_NOMINAL, LOG_ERROR). -/
inductive LOG_LEVEL_t where
  | LOG_DEBUG
  | LOG_NOMINAL
  | LOG_ERROR
  deriving DecidableEq, Repr

export LOG_LEVEL_t (LOG_DEBUG LOG_NOMINAL LOG_ERROR)

/-- EEPROM-resident configuration values (RATSConfigs, used by TCHandler.cpp).
Write-through persistence is modelled as plain field updates; f32 values are
modelled as rationals (they are only stored and copied, never computed with). -/
structure RATSConfigs where
  deploy_velocity : Rat
  retract_velocity : Rat
  data_proc_method : Nat
  real_time_mcb : Bool
  deriving DecidableEq, Repr

/-- Mutable instrument state touched by FlightMode, ManualFlight and TCHandler:
the StratoCore-provided inst_substate plus the StratoRATS fields declared in
StratoRats.h (action_flags, flight_mode_substate, time_valid, lora_count,
deploy_length, retract_length, mcb_motion, mcb_motion_ongoing, ratsConfigs).
The action-flag table is modelled by its raised bits; staleness counters are
handled by WatchFlags outside the code under src/ and are not needed by any
claim. -/
structure RATSState where
  inst_substate : Nat
  flight_mode_substate : Nat
  action_flags : ScheduleAction → Bool
  time_valid : Bool
  lora_count : Nat
  deploy_length : Rat
  retract_length : Rat
  mcb_motion : MCBMotion_t
  mcb_motion_ongoing : Bool
  ratsConfigs : RATSConfigs

/-- Modelled from the spec (section 4.A) and the header contract at
StratoRats.h lines 203-204: CheckAction safely checks and clears an action
flag, returning its prior raised state together with the updated state. -/
def CheckAction (a : ScheduleAction) (s : RATSState) : Bool × RATSState :=
  (s.action_flags a,
   { s with action_flags := fun b => if b = a then false else s.action_flags b })

/-- Modelled from the spec (section 4.A) and the header contract at
StratoRats.h lines 205-206: SetAction correctly sets an action flag. -/
def SetAction (a : ScheduleAction) (s : RATSState) : RATSState :=
  { s with action_flags := fun b => if b = a then true else s.action_flags b }

/-- Observable effects of one FlightMode tick. `scheduled` lists the
scheduler.AddAction calls in program order; `startManualMotion` records a call
Flight_ManualMotion(true); `flushReport` records an emission of the aggregated
RATS report telemetry during the tick (no statement in FlightMode or
ManualFlight reaches the RATS report path, so no branch sets it);
`shutdown` records a call to RATS_Shutdown. Log lines are not modelled. -/
structure FlightOutput where
  scheduled : List (ScheduleAction × Nat) := []
  startManualMotion : Bool := false
  flushReport : Bool := false
  shutdown : Bool := false
  deriving Repr

/-- StratoRATS::ManualFlight from Flight.cpp lines 147-178. `motionDone` is the
value the external sub-machine poll Flight_ManualMotion(false) returns this
tick (its implementation is not under src/). Note FLM_IDLE checks
ACTION_REEL_IN before ACTION_REEL_OUT, the reverse of the FL_MEASURE order. -/
def ManualFlight (s : RATSState) (motionDone : Bool) : RATSState × FlightOutput :=
  if s.inst_substate = FlightCpp.FLM_IDLE then
    let p := CheckAction ACTION_REEL_IN s
    if p.1 then
      ({ p.2 with mcb_motion := MOTION_REEL_IN, inst_substate := FlightCpp.FLM_MANUAL_MOTION },
       { startManualMotion := true })
    else
      let q := CheckAction ACTION_REEL_OUT p.2
      if q.1 then
        ({ q.2 with mcb_motion := MOTION_REEL_OUT, inst_substate := FlightCpp.FLM_MANUAL_MOTION },
         { startManualMotion := true })
      else (q.2, {})
  else if s.inst_substate = FlightCpp.FLM_MANUAL_MOTION then
    if motionDone then ({ s with inst_substate := FlightCpp.FLM_IDLE }, {}) else (s, {})
  else
    (s, {})

/-- StratoRATS::FlightMode from Flight.cpp lines 28-145, embedded with the
enumerator values of the file-scope FLStates_t declared in Flight.cpp itself (see the note in
namespace FlightCpp). The statusMsgCheck call at the top touches only the
status-message path (not under src/ and not needed by any claim); the
assignment flight_mode_substate = inst_substate is kept. The default switch
branch dispatches to ManualFlight. -/
def FlightMode (s0 : RATSState) (motionDone : Bool) : RATSState × FlightOutput :=
  let s := { s0 with flight_mode_substate := s0.inst_substate }
  if s.inst_substate = FlightCpp.FL_ENTRY then
    ({ s with inst_substate := FlightCpp.FL_GPS_WAIT },
     { scheduled := [(ACTION_SEND_STATUS, 1), (ACTION_SIM_LORA_MSG, 30), (ACTION_GPS_WAIT_MSG, 5)] })
  else if s.inst_substate = FlightCpp.FL_GPS_WAIT then
    let p := CheckAction ACTION_GPS_WAIT_MSG s
    let sched := if p.1 then [(ACTION_GPS_WAIT_MSG, 5)] else []
    if p.2.time_valid then
      ({ p.2 with inst_substate := FlightCpp.FL_LORA_WAIT1, lora_count := 0 },
       { scheduled := sched ++ [(ACTION_LORA_WAIT_MSG, 1)] })
    else
      (p.2, { scheduled := sched })
  else if s.inst_substate = FlightCpp.FL_LORA_WAIT1 then
    let p := CheckAction ACTION_LORA_WAIT_MSG s
    if p.1 then
      if LORA_MSG_COUNT ≤ p.2.lora_count then
        ({ p.2 with inst_substate := FlightCpp.FL_CONFIG_ECU },
         { scheduled := [(ACTION_LORA_WAIT_MSG, 1)] })
      else
        (p.2, { scheduled := [(ACTION_LORA_WAIT_MSG, 1)] })
    else
      (p.2, {})
  else if s.inst_substate = FlightCpp.FL_CONFIG_ECU then
    ({ s with inst_substate := FlightCpp.FL_LORA_WAIT2, lora_count := 0 }, {})
  else if s.inst_substate = FlightCpp.FL_LORA_WAIT2 then
    let p := CheckAction ACTION_LORA_WAIT_MSG s
    if p.1 then
      if LORA_MSG_COUNT ≤ p.2.lora_count then
        ({ p.2 with inst_substate := FlightCpp.FL_MEASURE },
         { scheduled := [(ACTION_LORA_WAIT_MSG, 1), (ACTION_START_TELEMETRY, 0)] })
      else
        (p.2, { scheduled := [(ACTION_LORA_WAIT_MSG, 1)] })
    else
      (p.2, {})
  else if s.inst_substate = FlightCpp.FL_MEASURE then
    let p := CheckAction ACTION_START_TELEMETRY s
    if p.1 then
      ({ p.2 with inst_substate := FlightCpp.FL_SEND_TELEMETRY }, {})
    else
      let q := CheckAction ACTION_REEL_OUT p.2
      if q.1 then
        ({ q.2 with mcb_motion := MOTION_REEL_OUT, inst_substate := FlightCpp.FLM_MANUAL_MOTION },
         { startManualMotion := true })
      else
        let r := CheckAction ACTION_REEL_IN q.2
        if r.1 then
          ({ r.2 with mcb_motion := MOTION_REEL_IN, inst_substate := FlightCpp.FLM_MANUAL_MOTION },
           { startManualMotion := true })
        else
          (r.2, {})
  else if s.inst_substate = FlightCpp.FL_SEND_TELEMETRY then
    ({ s with inst_substate := FlightCpp.FL_MEASURE },
     { scheduled := [(ACTION_START_TELEMETRY, 60)] })
  else if s.inst_substate = FlightCpp.FL_ERROR then
    (s, { shutdown := true })
  else if s.inst_substate = FlightCpp.FL_SHUTDOWN then
    (s, { shutdown := true })
  else if s.inst_substate = FlightCpp.FL_EXIT then
    (s, { shutdown := true })
  else
    ManualFlight s motionDone

/-- Environment inputs delivered to one whole scheduler tick before the
state-machine evaluation: `fired` are the actions the deadline scheduler fires
(raising their flags), `gpsTimeReceived` models StratoCore::RouteRXMessage
setting time_valid on a GPS time message, `loraMsgs` is the number of LoRa
messages LoRaRX counts this tick, and `motionDone` is the
Flight_ManualMotion(false) poll result. -/
structure TickInput where
  fired : List ScheduleAction := []
  gpsTimeReceived : Bool := false
  loraMsgs : Nat := 0
  motionDone : Bool := false

/-- Raise the flags of every action in `l` (scheduler firings; spec section 4.A). -/
def raiseFired (l : List ScheduleAction) (s : RATSState) : RATSState :=
  { s with action_flags := fun b => if b ∈ l then true else s.action_flags b }

/-- Modelled from the spec (section 5 ordering guarantees): within one tick the
LoRa poll, GPS time reception and scheduler firings happen before the
state-machine tick. LoRaRX and the scheduler are not under src/; their effects
on the state here are raising action flags, incrementing the lora counter
(lora_count_check contract, StratoRats.h lines 225-229) and asserting
time_valid. The state-machine tick itself is FlightMode. -/
def tickFL (s : RATSState) (inp : TickInput) : RATSState × FlightOutput :=
  let s1 := raiseFired inp.fired s
  let s2 := { s1 with
    time_valid := s1.time_valid || inp.gpsTimeReceived,
    lora_count := s1.lora_count + inp.loraMsgs }
  FlightMode s2 inp.motionDone

/-- Default EEPROM configuration used for concrete states. -/
def defaultConfigs : RATSConfigs :=
  { deploy_velocity := 0, retract_velocity := 0, data_proc_method := 0, real_time_mcb := false }

/-- Instrument state on flight-mode entry: inst_substate = FL_ENTRY (set by the
StratoCore framework on a mode change), all action flags down, no GPS time,
zero counters, no motion. -/
def initState : RATSState :=
  { inst_substate := FlightCpp.FL_ENTRY
    flight_mode_substate := 0
    action_flags := fun _ => false
    time_valid := false
    lora_count := 0
    deploy_length := 0
    retract_length := 0
    mcb_motion := NO_MOTION
    mcb_motion_ongoing := false
    ratsConfigs := defaultConfigs }

/-- Iterated ticks of the flight state machine from flight-mode entry under an
environment input stream. -/
def runFL (inputs : Nat → TickInput) : Nat → RATSState
  | 0 => initState
  | k + 1 => (tickFL (runFL inputs k) (inputs k)).1

/-- Observable output of the tick taken from `runFL inputs k`. -/
def outFL (inputs : Nat → TickInput) (k : Nat) : FlightOutput :=
  (tickFL (runFL inputs k) (inputs k)).2

/-- Telecommand identifiers from the external Telecommand_t enum, restricted to
the cases TCHandler.cpp handles; `UNKNOWN n` stands for any other identifier
value, which falls to the default branch. -/
inductive Telecommand_t where
  | DEPLOYx
  | DEPLOYv
  | DEPLOYa
  | RETRACTx
  | RETRACTv
  | RETRACTa
  | FULLRETRACT
  | CANCELMOTION
  | ZEROREEL
  | TORQUELIMITS
  | CURRLIMITS
  | IGNORELIMITS
  | USELIMITS
  | GETMCBEEPROM
  | GETMCBVOLTS
  | RATSDATAPROCTYPE
  | RATSREALTIMEMCBON
  | RATSREALTIMEMCBOFF
  | RATSGETEEPROM
  | UNKNOWN (code : Nat)
  deriving DecidableEq, Repr

/-- ASCII command identifiers sent to the MCB by TCHandler.cpp (external
MCBComm constants; only their identities matter). -/
inductive MCBCmdId where
  | MCB_CANCEL_MOTION
  | MCB_ZERO_REEL
  | MCB_IGNORE_LIMITS
  | MCB_USE_LIMITS
  | MCB_GET_EEPROM
  | MCB_GET_VOLTAGES
  deriving DecidableEq, Repr

export MCBCmdId (MCB_CANCEL_MOTION MCB_ZERO_REEL MCB_IGNORE_LIMITS MCB_USE_LIMITS
  MCB_GET_EEPROM MCB_GET_VOLTAGES)

/-- MCB transmissions attempted by TCHandler.cpp, in program order. -/
inductive MCBTx where
  | TX_Out_Acc (acc : Rat)
  | TX_In_Acc (acc : Rat)
  | TX_ASCII (cmd : MCBCmdId)
  | TX_Torque_Limits (lo hi : Rat)
  | TX_Curr_Limits (lo hi : Rat)
  deriving DecidableEq, Repr

/-- Parameter union mcbParam of the incoming telecommand (f32 values modelled
as rationals; they are only stored and forwarded). -/
structure McbParams where
  deployLen : Rat := 0
  deployVel : Rat := 0
  deployAcc : Rat := 0
  retractLen : Rat := 0
  retractVel : Rat := 0
  retractAcc : Rat := 0
  torqueLimits : Rat × Rat := (0, 0)
  currLimits : Rat × Rat := (0, 0)
  deriving DecidableEq, Repr

/-- Parameter union ratsParam of the incoming telecommand. -/
structure RatsParams where
  data_proc_method : Nat := 0
  deriving DecidableEq, Repr

/-- Result of one TCHandler call: the updated state, the summary message and
its level (the String() numeric interpolations of the source are elided from
the message texts), the MCB transmissions attempted, whether SendRATSEEPROM
ran, and the ACK/NAK return value. -/
structure TCOutcome where
  state : RATSState
  msg : String
  summary_level : LOG_LEVEL_t
  mcbTx : List MCBTx := []
  sentRATSEEPROM : Bool := false
  ack : Bool

/-- StratoRATS::TCHandler from TCHandler.cpp lines 4-164 (the dispatch switch;
the trailing summary switch is emitTCSummary below). `txOk` is the success
value returned by the single checked MCB transmission of the branch, when
there is one (TX_Out_Acc, TX_In_Acc, TX_Torque_Limits, TX_Curr_Limits).
Unqualified lookup inside this member function selects the class-scope
FLStates_t of StratoRats.h, so the DEPLOYx and RETRACTx guards compare
inst_substate against StratoRatsH.FL_MEASURE. -/
def TCHandler (s : RATSState) (tc : Telecommand_t) (mcbParam : McbParams)
    (ratsParam : RatsParams) (txOk : Bool) : TCOutcome :=
  match tc with
  | Telecommand_t.DEPLOYx =>
    if s.inst_substate = StratoRatsH.FL_MEASURE then
      { state := SetAction ACTION_REEL_OUT { s with deploy_length := mcbParam.deployLen }
        msg := "TC Deploy Length: revs"
        summary_level := LOG_NOMINAL
        ack := true }
    else
      { state := s
        msg := "Cannot deploy, not in FL_MEASURE"
        summary_level := LOG_ERROR
        ack := true }
  | Telecommand_t.DEPLOYv =>
    { state := { s with ratsConfigs := { s.ratsConfigs with deploy_velocity := mcbParam.deployVel } }
      msg := "TC Deploy Velocity"
      summary_level := LOG_NOMINAL
      ack := true }
  | Telecommand_t.DEPLOYa =>
    { state := s
      msg := if txOk then "TC Deploy Acceleration" else "Error sending deploy acc to MCB"
      summary_level := LOG_NOMINAL
      mcbTx := [MCBTx.TX_Out_Acc mcbParam.deployAcc]
      ack := true }
  | Telecommand_t.RETRACTx =>
    if s.inst_substate = StratoRatsH.FL_MEASURE then
      { state := SetAction ACTION_REEL_IN { s with retract_length := mcbParam.retractLen }
        msg := "TC Retract Length: revs"
        summary_level := LOG_NOMINAL
        ack := true }
    else
      { state := s
        msg := "Cannot retract, not in FL_MEASURE"
        summary_level := LOG_ERROR
        ack := true }
  | Telecommand_t.RETRACTv =>
    { state := { s with ratsConfigs := { s.ratsConfigs with retract_velocity := mcbParam.retractVel } }
      msg := "TC Retract Velocity"
      summary_level := LOG_NOMINAL
      ack := true }
  | Telecommand_t.RETRACTa =>
    { state := s
      msg := if txOk then "TC Retract Acceleration" else "Error sending retract acc to MCB"
      summary_level := LOG_NOMINAL
      mcbTx := [MCBTx.TX_In_Acc mcbParam.retractAcc]
      ack := true }
  | Telecommand_t.FULLRETRACT =>
    { state := s
      msg := "TC Full Retract"
      summary_level := LOG_NOMINAL
      ack := true }
  | Telecommand_t.CANCELMOTION =>
    { state := SetAction ACTION_MOTION_STOP s
      msg := "TC Cancel Motion"
      summary_level := LOG_NOMINAL
      mcbTx := [MCBTx.TX_ASCII MCB_CANCEL_MOTION]
      ack := true }
  | Telecommand_t.ZEROREEL =>
    if s.mcb_motion_ongoing then
      { state := s
        msg := "Can\x27t zero reel, motion ongoing"
        summary_level := LOG_ERROR
        ack := true }
    else
      { state := s
        msg := "TC Zero Reel"
        summary_level := LOG_NOMINAL
        mcbTx := [MCBTx.TX_ASCII MCB_ZERO_REEL]
        ack := true }
  | Telecommand_t.TORQUELIMITS =>
    { state := s
      msg := if txOk then "TC Torque Limits" else "Error sending torque limits to MCB"
      summary_level := if txOk then LOG_NOMINAL else LOG_ERROR
      mcbTx := [MCBTx.TX_Torque_Limits mcbParam.torqueLimits.1 mcbParam.torqueLimits.2]
      ack := true }
  | Telecommand_t.CURRLIMITS =>
    { state := s
      msg := if txOk then "TC Current Limits" else "Error sending curr limits to MCB"
      summary_level := if txOk then LOG_NOMINAL else LOG_ERROR
      mcbTx := [MCBTx.TX_Curr_Limits mcbParam.currLimits.1 mcbParam.currLimits.2]
      ack := true }
  | Telecommand_t.IGNORELIMITS =>
    { state := s
      msg := "TC Ignore Limits"
      summary_level := LOG_NOMINAL
      mcbTx := [MCBTx.TX_ASCII MCB_IGNORE_LIMITS]
      ack := true }
  | Telecommand_t.USELIMITS =>
    { state := s
      msg := "TC Use Limits"
      summary_level := LOG_NOMINAL
      mcbTx := [MCBTx.TX_ASCII MCB_USE_LIMITS]
      ack := true }
  | Telecommand_t.GETMCBEEPROM =>
    if s.mcb_motion_ongoing then
      { state := s
        msg := "Motion ongoing, request MCB EEPROM later"
        summary_level := LOG_ERROR
        ack := true }
    else
      { state := s
        msg := "TC get MCB EEPROM"
        summary_level := LOG_NOMINAL
        mcbTx := [MCBTx.TX_ASCII MCB_GET_EEPROM]
        ack := true }
  | Telecommand_t.GETMCBVOLTS =>
    { state := s
      msg := "TC get MCB voltages"
      summary_level := LOG_NOMINAL
      mcbTx := [MCBTx.TX_ASCII MCB_GET_VOLTAGES]
      ack := true }
  | Telecommand_t.RATSDATAPROCTYPE =>
    { state := { s with ratsConfigs := { s.ratsConfigs with data_proc_method := ratsParam.data_proc_method } }
      msg := "TC set processing mode"
      summary_level := LOG_NOMINAL
      ack := true }
  | Telecommand_t.RATSREALTIMEMCBON =>
    if s.mcb_motion_ongoing then
      { state := s
        msg := "Cannot start real-time MCB mode, motion ongoing"
        summary_level := LOG_ERROR
        ack := true }
    else
      { state := { s with ratsConfigs := { s.ratsConfigs with real_time_mcb := true } }
        msg := "Enabled real-time MCB mode"
        summary_level := LOG_NOMINAL
        ack := true }
  | Telecommand_t.RATSREALTIMEMCBOFF =>
    if s.mcb_motion_ongoing then
      { state := s
        msg := "Cannot start real-time MCB mode, motion ongoing"
        summary_level := LOG_ERROR
        ack := true }
    else
      { state := { s with ratsConfigs := { s.ratsConfigs with real_time_mcb := false } }
        msg := "Disabled real-time MCB mode"
        summary_level := LOG_NOMINAL
        ack := true }
  | Telecommand_t.RATSGETEEPROM =>
    if s.mcb_motion_ongoing then
      { state := s
        msg := "Motion ongoing, request RATS EEPROM later"
        summary_level := LOG_ERROR
        ack := true }
    else
      { state := s
        msg := "TC get RATS EEPROM"
        summary_level := LOG_NOMINAL
        sentRATSEEPROM := true
        ack := true }
  | Telecommand_t.UNKNOWN n =>
    { state := s
      msg := "Unknown TC " ++ toString n ++ " received"
      summary_level := LOG_ERROR
      ack := true }

/-- Counts of summary outputs produced by the trailing switch of TCHandler.cpp
for one telecommand: StratoCore log lines, fine-level TMs (ZephyrLogFine) and
warn-level TMs (ZephyrLogWarn). -/
structure TCEmission where
  logLines : Nat
  fineTM : Nat
  warnTM : Nat
  deriving DecidableEq, Repr

/-- Trailing summary switch of TCHandler.cpp lines 146-161: LOG_DEBUG logs
without emitting a TM; LOG_NOMINAL logs and emits one fine TM; LOG_ERROR (and
the default branch for any other level) logs and emits one warn TM. -/
def emitTCSummary (lv : LOG_LEVEL_t) : TCEmission :=
  match lv with
  | LOG_DEBUG => { logLines := 1, fineTM := 0, warnTM := 0 }
  | LOG_NOMINAL => { logLines := 1, fineTM := 1, warnTM := 0 }
  | LOG_ERROR => { logLines := 1, fineTM := 0, warnTM := 1 }

/-- Nominal environment input for the warmup scenario: the scheduler fires
LORA_WAIT_MSG every tick, a GPS time message is present, and three LoRa
messages arrive per tick. -/
def nominalInput : TickInput :=
  { fired := [ACTION_LORA_WAIT_MSG], gpsTimeReceived := true, loraMsgs := 3 }

/-- Concrete state sitting in FL_SEND_TELEMETRY with a pending (unsent) RATS
report context: flags down, no motion. -/
def sendTelemetryState : RATSState :=
  { initState with inst_substate := FlightCpp.FL_SEND_TELEMETRY }

/-- Concrete state sitting in FLM_IDLE with all action flags down. -/
def manualIdleState : RATSState :=
  { initState with inst_substate := FlightCpp.FLM_IDLE }

/-- Concrete state sitting in FLM_MANUAL_MOTION with all action flags down. -/
def manualMotionState : RATSState :=
  { initState with inst_substate := FlightCpp.FLM_MANUAL_MOTION }

/-- Concrete FLM_IDLE state with both REEL_OUT and REEL_IN raised. -/
def bothReelsIdleState : RATSState :=
  { initState with
    inst_substate := FlightCpp.FLM_IDLE
    action_flags := fun a => a == ACTION_REEL_OUT || a == ACTION_REEL_IN }

/-- Concrete FL_MEASURE state with both reel flags raised and START_TELEMETRY
down. -/
def bothReelsMeasureState : RATSState :=
  { initState with
    inst_substate := FlightCpp.FL_MEASURE
    action_flags := fun a => a == ACTION_REEL_OUT || a == ACTION_REEL_IN }

/-- Concrete FL_MEASURE state with START_TELEMETRY and both reel flags raised. -/
def startAndReelsMeasureState : RATSState :=
  { initState with
    inst_substate := FlightCpp.FL_MEASURE
    action_flags := fun a =>
      a == ACTION_START_TELEMETRY || a == ACTION_REEL_OUT || a == ACTION_REEL_IN }

/-- Concrete state in the sub-state the flight state machine enters as
FL_MEASURE (Flight.cpp value MODE_ENTRY+5), with all flags down. -/
def measureFlightState : RATSState :=
  { initState with inst_substate := FlightCpp.FL_MEASURE }

/-- Concrete FL_LORA_WAIT2 state with the gate satisfied, used to exhibit the
value the machine enters MEASURE as. -/
def loraWait2ReadyState : RATSState :=
  { initState with
    inst_substate := FlightCpp.FL_LORA_WAIT2
    lora_count := 3
    action_flags := fun a => a == ACTION_LORA_WAIT_MSG }

/-- Concrete acceleration parameters for the C8 evaluation. -/
def accParams : McbParams := { deployAcc := 5, retractAcc := 7 }

attribute [simp] MODE_ENTRY MODE_ERROR MODE_SHUTDOWN MODE_EXIT LORA_MSG_COUNT
attribute [simp] FlightCpp.FL_ENTRY FlightCpp.FL_GPS_WAIT FlightCpp.FL_LORA_WAIT1
attribute [simp] FlightCpp.FL_CONFIG_ECU FlightCpp.FL_LORA_WAIT2 FlightCpp.FL_MEASURE
attribute [simp] FlightCpp.FL_SEND_TELEMETRY FlightCpp.FLM_IDLE FlightCpp.FLM_MANUAL_MOTION
attribute [simp] FlightCpp.FL_ERROR FlightCpp.FL_SHUTDOWN FlightCpp.FL_EXIT
attribute [simp] StratoRatsH.FL_ENTRY StratoRatsH.FL_GPS_WAIT StratoRatsH.FL_WARMUP
attribute [simp] StratoRatsH.FL_MEASURE StratoRatsH.FL_REEL

/-- Helper: a tick taken in FL_ENTRY moves to FL_GPS_WAIT and carries the GPS
time assertion of the input into time_valid. -/
theorem tickFL_entry (s : RATSState) (inp : TickInput)
    (h : s.inst_substate = FlightCpp.FL_ENTRY) :
    (tickFL s inp).1.inst_substate = FlightCpp.FL_GPS_WAIT ∧
    (tickFL s inp).1.time_valid = (s.time_valid || inp.gpsTimeReceived) := by
  simp [tickFL, raiseFired, FlightMode, h]

/-- Helper: a tick taken in FL_GPS_WAIT with a GPS time message moves to
FL_LORA_WAIT1 and resets the warmup LoRa counter. -/
theorem tickFL_gps_wait (s : RATSState) (inp : TickInput)
    (h : s.inst_substate = FlightCpp.FL_GPS_WAIT) (hg : inp.gpsTimeReceived = true) :
    (tickFL s inp).1.inst_substate = FlightCpp.FL_LORA_WAIT1 ∧
    (tickFL s inp).1.lora_count = 0 := by
  simp [tickFL, raiseFired, FlightMode, CheckAction, h, hg]

/-- Helper: a tick taken in FL_LORA_WAIT1 with the LORA_WAIT_MSG action firing
and the gate count reached moves to FL_CONFIG_ECU. -/
theorem tickFL_lora_wait1 (s : RATSState) (inp : TickInput)
    (h : s.inst_substate = FlightCpp.FL_LORA_WAIT1)
    (hf : ACTION_LORA_WAIT_MSG ∈ inp.fired)
    (hc : LORA_MSG_COUNT ≤ s.lora_count + inp.loraMsgs) :
    (tickFL s inp).1.inst_substate = FlightCpp.FL_CONFIG_ECU := by
  simp only [LORA_MSG_COUNT] at hc
  simp [tickFL, raiseFired, FlightMode, CheckAction, h, hf, hc]

/-- Helper: a tick taken in FL_CONFIG_ECU moves to FL_LORA_WAIT2 and resets the
warmup LoRa counter. -/
theorem tickFL_config_ecu (s : RATSState) (inp : TickInput)
    (h : s.inst_substate = FlightCpp.FL_CONFIG_ECU) :
    (tickFL s inp).1.inst_substate = FlightCpp.FL_LORA_WAIT2 ∧
    (tickFL s inp).1.lora_count = 0 := by
  simp [tickFL, raiseFired, FlightMode, h]

/-- Helper: a tick taken in FL_LORA_WAIT2 with the LORA_WAIT_MSG action firing
and the gate count reached moves to FL_MEASURE, scheduling START_TELEMETRY with
a zero-second deadline. -/
theorem tickFL_lora_wait2 (s : RATSState) (inp : TickInput)
    (h : s.inst_substate = FlightCpp.FL_LORA_WAIT2)
    (hf : ACTION_LORA_WAIT_MSG ∈ inp.fired)
    (hc : LORA_MSG_COUNT ≤ s.lora_count + inp.loraMsgs) :
    (tickFL s inp).1.inst_substate = FlightCpp.FL_MEASURE ∧
    (tickFL s inp).2.scheduled = [(ACTION_LORA_WAIT_MSG, 1), (ACTION_START_TELEMETRY, 0)] := by
  simp only [LORA_MSG_COUNT] at hc
  simp [tickFL, raiseFired, FlightMode, CheckAction, h, hf, hc]

/-- C2: starting from sub-state ENTRY, with time_valid asserted and at least
LORA_MSG_COUNT LoRa messages counted after each warmup-counter reset while the
LORA_WAIT_MSG action fires every tick, the flight state machine passes through
GPS_WAIT, LORA_WAIT1, CONFIG_ECU and LORA_WAIT2 in that order and reaches
MEASURE within five ticks without re-entering an earlier sub-state, and the
tick that satisfies the LORA_WAIT2 gate schedules START_TELEMETRY with a
0-second deadline. -/
theorem C2_nominal_warmup_monotone (inputs : Nat → TickInput)
    (hnom : ∀ k, (inputs k).gpsTimeReceived = true ∧
      ACTION_LORA_WAIT_MSG ∈ (inputs k).fired ∧
      LORA_MSG_COUNT ≤ (inputs k).loraMsgs) :
    (runFL inputs 0).inst_substate = FlightCpp.FL_ENTRY ∧
    (runFL inputs 1).inst_substate = FlightCpp.FL_GPS_WAIT ∧
    (runFL inputs 2).inst_substate = FlightCpp.FL_LORA_WAIT1 ∧
    (runFL inputs 3).inst_substate = FlightCpp.FL_CONFIG_ECU ∧
    (runFL inputs 4).inst_substate = FlightCpp.FL_LORA_WAIT2 ∧
    (runFL inputs 5).inst_substate = FlightCpp.FL_MEASURE ∧
    (outFL inputs 4).scheduled = [(ACTION_LORA_WAIT_MSG, 1), (ACTION_START_TELEMETRY, 0)] := by
  have h0 : (runFL inputs 0).inst_substate = FlightCpp.FL_ENTRY := rfl
  have t1 := tickFL_entry (runFL inputs 0) (inputs 0) h0
  have h1 : (runFL inputs 1).inst_substate = FlightCpp.FL_GPS_WAIT := t1.1
  have t2 := tickFL_gps_wait (runFL inputs 1) (inputs 1) h1 (hnom 1).1
  have h2 : (runFL inputs 2).inst_substate = FlightCpp.FL_LORA_WAIT1 := t2.1
  have hcnt2 : (runFL inputs 2).lora_count = 0 := t2.2
  have h3 : (runFL inputs 3).inst_substate = FlightCpp.FL_CONFIG_ECU := by
    refine tickFL_lora_wait1 (runFL inputs 2) (inputs 2) h2 (hnom 2).2.1 ?_
    rw [hcnt2]
    simpa using (hnom 2).2.2
  have t4 := tickFL_config_ecu (runFL inputs 3) (inputs 3) h3
  have h4 : (runFL inputs 4).inst_substate = FlightCpp.FL_LORA_WAIT2 := t4.1
  have hcnt4 : (runFL inputs 4).lora_count = 0 := t4.2
  have t5 := tickFL_lora_wait2 (runFL inputs 4) (inputs 4) h4 (hnom 4).2.1 (by
    rw [hcnt4]
    simpa using (hnom 4).2.2)
  exact ⟨h0, h1, h2, h3, h4, t5.1, t5.2⟩

/-- Witness for C2 at the concrete constant nominal input stream. -/
theorem C2_nominal_warmup_monotone_witness :
    (runFL (fun _ => nominalInput) 5).inst_substate = FlightCpp.FL_MEASURE ∧
    (outFL (fun _ => nominalInput) 4).scheduled =
      [(ACTION_LORA_WAIT_MSG, 1), (ACTION_START_TELEMETRY, 0)] := by
  have h := C2_nominal_warmup_monotone (fun _ => nominalInput)
    (fun k => ⟨rfl, by simp [nominalInput], by simp [nominalInput]⟩)
  exact ⟨h.2.2.2.2.2.1, h.2.2.2.2.2.2⟩

/-- C3 counterexample: on a tick executed in FL_SEND_TELEMETRY the machine does
return to FL_MEASURE and reschedule START_TELEMETRY, but no branch of the
state machine emits the aggregated RATS report telemetry — the claimed flush
does not happen on this tick. -/
theorem C3_send_telemetry_no_flush_counterexample :
    (FlightMode sendTelemetryState false).1.inst_substate = FlightCpp.FL_MEASURE ∧
    (FlightMode sendTelemetryState false).2.scheduled = [(ACTION_START_TELEMETRY, 60)] ∧
    (FlightMode sendTelemetryState false).2.flushReport = false := by
  refine ⟨rfl, rfl, rfl⟩

/-- C3 (amended): on every tick executed in sub-state SEND_TELEMETRY, the
machine schedules the START_TELEMETRY action 60 seconds in the future and sets
the sub-state back to MEASURE; it does not flush the pending RATS report (no
telemetry emission happens in this state). -/
theorem C3_send_telemetry_step (s : RATSState) (d : Bool)
    (h : s.inst_substate = FlightCpp.FL_SEND_TELEMETRY) :
    (FlightMode s d).1.inst_substate = FlightCpp.FL_MEASURE ∧
    (FlightMode s d).2.scheduled = [(ACTION_START_TELEMETRY, 60)] ∧
    (FlightMode s d).2.flushReport = false := by
  simp [FlightMode, h]

/-- Witness for C3 at the concrete SEND_TELEMETRY state. -/
theorem C3_send_telemetry_step_witness :
    sendTelemetryState.inst_substate = FlightCpp.FL_SEND_TELEMETRY ∧
    (FlightMode sendTelemetryState true).1.inst_substate = FlightCpp.FL_MEASURE :=
  ⟨rfl, (C3_send_telemetry_step sendTelemetryState true rfl).1⟩

/-- C4 counterexample: a tick from MANUAL_IDLE with no reel actions leaves the
machine in MANUAL_IDLE — it does not transition to MEASURE on the next tick
after a completed motion. -/
theorem C4_manual_idle_stays_counterexample :
    (FlightMode manualIdleState false).1.inst_substate = FlightCpp.FLM_IDLE ∧
    FlightCpp.FLM_IDLE ≠ FlightCpp.FL_MEASURE := by
  refine ⟨rfl, by decide⟩

/-- C4 (amended): during MANUAL_MOTION, once the motion sub-machine reports
completion the flight state machine transitions to MANUAL_IDLE; it then stays
in MANUAL_IDLE on subsequent ticks while no reel action flag is raised (a
raised reel flag starts a new motion) — it never transitions to MEASURE from
MANUAL_IDLE. -/
theorem C4_manual_motion_completion :
    (∀ (s : RATSState), s.inst_substate = FlightCpp.FLM_MANUAL_MOTION →
       (FlightMode s true).1.inst_substate = FlightCpp.FLM_IDLE) ∧
    (∀ (s : RATSState) (d : Bool), s.inst_substate = FlightCpp.FLM_IDLE →
       s.action_flags ACTION_REEL_IN = false →
       s.action_flags ACTION_REEL_OUT = false →
       (FlightMode s d).1.inst_substate = FlightCpp.FLM_IDLE) := by
  constructor
  · intro s h
    simp [FlightMode, ManualFlight, h]
  · intro s d h hin hout
    simp [FlightMode, ManualFlight, CheckAction, h, hin, hout]

/-- Witness for C4 at concrete states. -/
theorem C4_manual_motion_completion_witness :
    (FlightMode manualMotionState true).1.inst_substate = FlightCpp.FLM_IDLE ∧
    (FlightMode manualIdleState false).1.inst_substate = FlightCpp.FLM_IDLE :=
  ⟨C4_manual_motion_completion.1 manualMotionState rfl,
   C4_manual_motion_completion.2 manualIdleState false rfl rfl rfl⟩

/-- C5 counterexample: on a tick in FLM_IDLE with both REEL_OUT and REEL_IN
raised, the consumed flag is REEL_IN (motion kind becomes MOTION_REEL_IN and
the REEL_OUT flag stays raised) — REEL_OUT does not win the tie-break on every
tick of the flight state machine. -/
theorem C5_manual_idle_reel_in_wins_counterexample :
    (FlightMode bothReelsIdleState false).1.mcb_motion = MOTION_REEL_IN ∧
    (FlightMode bothReelsIdleState false).1.action_flags ACTION_REEL_OUT = true ∧
    (FlightMode bothReelsIdleState false).1.action_flags ACTION_REEL_IN = false := by
  refine ⟨rfl, rfl, rfl⟩

/-- C5 (amended): in sub-state MEASURE the START_TELEMETRY flag is evaluated
before either reel flag (if it is raised no reel flag is consumed that tick),
and when both reel flags are raised in MEASURE the REEL_OUT flag is the one
consumed; in sub-state MANUAL_IDLE, however, REEL_IN is checked first and wins
the tie-break. -/
theorem C5_reel_tie_break :
    (∀ (s : RATSState) (d : Bool), s.inst_substate = FlightCpp.FL_MEASURE →
       s.action_flags ACTION_START_TELEMETRY = true →
       (FlightMode s d).1.action_flags ACTION_REEL_OUT = s.action_flags ACTION_REEL_OUT ∧
       (FlightMode s d).1.action_flags ACTION_REEL_IN = s.action_flags ACTION_REEL_IN ∧
       (FlightMode s d).1.inst_substate = FlightCpp.FL_SEND_TELEMETRY) ∧
    (∀ (s : RATSState) (d : Bool), s.inst_substate = FlightCpp.FL_MEASURE →
       s.action_flags ACTION_START_TELEMETRY = false →
       s.action_flags ACTION_REEL_OUT = true →
       s.action_flags ACTION_REEL_IN = true →
       (FlightMode s d).1.mcb_motion = MOTION_REEL_OUT ∧
       (FlightMode s d).1.action_flags ACTION_REEL_OUT = false ∧
       (FlightMode s d).1.action_flags ACTION_REEL_IN = true) ∧
    (∀ (s : RATSState) (d : Bool), s.inst_substate = FlightCpp.FLM_IDLE →
       s.action_flags ACTION_REEL_OUT = true →
       s.action_flags ACTION_REEL_IN = true →
       (FlightMode s d).1.mcb_motion = MOTION_REEL_IN ∧
       (FlightMode s d).1.action_flags ACTION_REEL_OUT = true ∧
       (FlightMode s d).1.action_flags ACTION_REEL_IN = false) := by
  refine ⟨?_, ?_, ?_⟩
  · intro s d h hst
    simp [FlightMode, CheckAction, h, hst]
  · intro s d h hst hro hri
    simp [FlightMode, CheckAction, h, hst, hro, hri]
  · intro s d h hro hri
    simp [FlightMode, ManualFlight, CheckAction, h, hro, hri]

/-- Witness for C5 at concrete states. -/
theorem C5_reel_tie_break_witness :
    (FlightMode startAndReelsMeasureState false).1.inst_substate = FlightCpp.FL_SEND_TELEMETRY ∧
    (FlightMode bothReelsMeasureState false).1.mcb_motion = MOTION_REEL_OUT ∧
    (FlightMode bothReelsIdleState false).1.mcb_motion = MOTION_REEL_IN :=
  ⟨(C5_reel_tie_break.1 startAndReelsMeasureState false rfl rfl).2.2,
   (C5_reel_tie_break.2.1 bothReelsMeasureState false rfl rfl rfl rfl).1,
   (C5_reel_tie_break.2.2 bothReelsIdleState false rfl rfl rfl).1⟩

/-- C10: on a tick in MEASURE that consumes START_TELEMETRY, the sub-state
becomes SEND_TELEMETRY and nothing else changes — the REEL_OUT and REEL_IN
flags are neither tested nor cleared and mcb_motion is unchanged, with no
scheduling and no motion start; and the ENTRY tick schedules SEND_STATUS at
+1 s, ACTION_SIM_LORA_MSG at +30 s and GPS_WAIT_MSG at +5 s, transitioning to
GPS_WAIT in the same tick. -/
theorem C10_measure_frame_and_entry_actions :
    (∀ (s : RATSState) (d : Bool), s.inst_substate = FlightCpp.FL_MEASURE →
       s.action_flags ACTION_START_TELEMETRY = true →
       (FlightMode s d).1.inst_substate = FlightCpp.FL_SEND_TELEMETRY ∧
       (FlightMode s d).1.action_flags ACTION_REEL_OUT = s.action_flags ACTION_REEL_OUT ∧
       (FlightMode s d).1.action_flags ACTION_REEL_IN = s.action_flags ACTION_REEL_IN ∧
       (FlightMode s d).1.mcb_motion = s.mcb_motion ∧
       (FlightMode s d).2.scheduled = [] ∧
       (FlightMode s d).2.startManualMotion = false) ∧
    (∀ (s : RATSState) (d : Bool), s.inst_substate = FlightCpp.FL_ENTRY →
       (FlightMode s d).2.scheduled =
         [(ACTION_SEND_STATUS, 1), (ACTION_SIM_LORA_MSG, 30), (ACTION_GPS_WAIT_MSG, 5)] ∧
       (FlightMode s d).1.inst_substate = FlightCpp.FL_GPS_WAIT) := by
  constructor
  · intro s d h hst
    simp [FlightMode, CheckAction, h, hst]
  · intro s d h
    simp [FlightMode, h]

/-- Witness for C10 at concrete states. -/
theorem C10_measure_frame_and_entry_actions_witness :
    (FlightMode startAndReelsMeasureState false).1.mcb_motion =
      startAndReelsMeasureState.mcb_motion ∧
    (FlightMode initState false).2.scheduled =
      [(ACTION_SEND_STATUS, 1), (ACTION_SIM_LORA_MSG, 30), (ACTION_GPS_WAIT_MSG, 5)] :=
  ⟨(C10_measure_frame_and_entry_actions.1 startAndReelsMeasureState false rfl rfl).2.2.2.1,
   (C10_measure_frame_and_entry_actions.2 initState false rfl).1⟩

/-- C1: evaluation at the failing input. The flight state machine enters
MEASURE as the Flight.cpp enumerator FL_MEASURE = MODE_ENTRY+5 (last conjunct), but the
DEPLOYx and RETRACTx guards in TCHandler compare against the class-scope
FL_MEASURE of StratoRats.h, which is MODE_ENTRY+3 — the value Flight.cpp
assigns to FL_CONFIG_ECU. Dispatching DEPLOYx or RETRACTx while the machine is
in the state it entered as FL_MEASURE therefore raises no reel flag, stores no
length, and emits a warn-level TM, contradicting the claim. -/
theorem C1_measure_guard_value_mismatch :
    StratoRatsH.FL_MEASURE ≠ FlightCpp.FL_MEASURE ∧
    StratoRatsH.FL_MEASURE = FlightCpp.FL_CONFIG_ECU ∧
    (FlightMode loraWait2ReadyState false).1.inst_substate = FlightCpp.FL_MEASURE ∧
    (TCHandler measureFlightState Telecommand_t.DEPLOYx { deployLen := 5 } {} true).state.action_flags
        ACTION_REEL_OUT = false ∧
    (TCHandler measureFlightState Telecommand_t.DEPLOYx { deployLen := 5 } {} true).state.deploy_length
        = measureFlightState.deploy_length ∧
    (TCHandler measureFlightState Telecommand_t.DEPLOYx { deployLen := 5 } {} true).summary_level
        = LOG_ERROR ∧
    (TCHandler measureFlightState Telecommand_t.RETRACTx { retractLen := 5 } {} true).state.action_flags
        ACTION_REEL_IN = false ∧
    (TCHandler measureFlightState Telecommand_t.RETRACTx { retractLen := 5 } {} true).summary_level
        = LOG_ERROR := by
  refine ⟨by decide, by decide, rfl, rfl, rfl, rfl, rfl, rfl⟩

/-- Helper: the dispatch switch of TCHandler never selects LOG_DEBUG as the
summary level. -/
theorem TCHandler_level_not_debug (s : RATSState) (tc : Telecommand_t)
    (mp : McbParams) (rp : RatsParams) (ok : Bool) :
    (TCHandler s tc mp rp ok).summary_level = LOG_NOMINAL ∨
    (TCHandler s tc mp rp ok).summary_level = LOG_ERROR := by
  cases tc <;> simp only [TCHandler] <;>
    first
      | (split <;> simp)
      | simp

/-- C6: the telecommand handler returns ACK (true) for every input, and an
unknown command identifier produces a warn-level summary TM while the ACK is
still returned. -/
theorem C6_ack_always_and_unknown_warn :
    (∀ (s : RATSState) (tc : Telecommand_t) (mp : McbParams) (rp : RatsParams) (ok : Bool),
       (TCHandler s tc mp rp ok).ack = true) ∧
    (∀ (s : RATSState) (mp : McbParams) (rp : RatsParams) (ok : Bool) (n : Nat),
       (TCHandler s (Telecommand_t.UNKNOWN n) mp rp ok).summary_level = LOG_ERROR ∧
       (emitTCSummary (TCHandler s (Telecommand_t.UNKNOWN n) mp rp ok).summary_level).warnTM = 1 ∧
       (TCHandler s (Telecommand_t.UNKNOWN n) mp rp ok).ack = true) := by
  constructor
  · intro s tc mp rp ok
    cases tc <;> simp only [TCHandler] <;> first | rfl | (split <;> rfl)
  · intro s mp rp ok n
    exact ⟨rfl, rfl, rfl⟩

/-- C7: for every telecommand, the trailing summary switch emits exactly one
log line and exactly one summary TM, and that TM is fine-level or warn-level
(the LOG_DEBUG branch, which logs without a TM, is never selected). -/
theorem C7_one_log_one_summary_tm (s : RATSState) (tc : Telecommand_t)
    (mp : McbParams) (rp : RatsParams) (ok : Bool) :
    (emitTCSummary (TCHandler s tc mp rp ok).summary_level).logLines = 1 ∧
    (emitTCSummary (TCHandler s tc mp rp ok).summary_level).fineTM +
      (emitTCSummary (TCHandler s tc mp rp ok).summary_level).warnTM = 1 ∧
    (TCHandler s tc mp rp ok).summary_level ≠ LOG_DEBUG := by
  rcases TCHandler_level_not_debug s tc mp rp ok with hl | hl <;>
    rw [hl] <;> exact ⟨rfl, rfl, by decide⟩

/-- C8: evaluation at the failing input. DEPLOYa and RETRACTa send the
parameter to the MCB with no sub-state guard (here from a non-MEASURE
sub-state), but when the MCB transmission fails the summary level remains
LOG_NOMINAL: the summary TM is fine-level with an error message text, not the
warn-level TM the claim states (contrast TORQUELIMITS, which does set
LOG_ERROR on a failed transmission). -/
theorem C8_acc_tx_failure_stays_fine :
    initState.inst_substate ≠ StratoRatsH.FL_MEASURE ∧
    (TCHandler initState Telecommand_t.DEPLOYa accParams {} false).mcbTx
        = [MCBTx.TX_Out_Acc accParams.deployAcc] ∧
    (TCHandler initState Telecommand_t.DEPLOYa accParams {} false).msg
        = "Error sending deploy acc to MCB" ∧
    (TCHandler initState Telecommand_t.DEPLOYa accParams {} false).summary_level = LOG_NOMINAL ∧
    (emitTCSummary (TCHandler initState Telecommand_t.DEPLOYa accParams {} false).summary_level).fineTM
        = 1 ∧
    (emitTCSummary (TCHandler initState Telecommand_t.DEPLOYa accParams {} false).summary_level).warnTM
        = 0 ∧
    (TCHandler initState Telecommand_t.RETRACTa accParams {} false).mcbTx
        = [MCBTx.TX_In_Acc accParams.retractAcc] ∧
    (TCHandler initState Telecommand_t.RETRACTa accParams {} false).summary_level = LOG_NOMINAL ∧
    (TCHandler initState Telecommand_t.TORQUELIMITS accParams {} false).summary_level = LOG_ERROR := by
  refine ⟨by decide, rfl, rfl, rfl, rfl, rfl, rfl, rfl, rfl⟩

/-- C9: for every ECU record size accepted by the compile-time guard, the
maximum RATS report size equals 7 + (NUM_ECU_REPORTS+1) * record_size bytes
and does not exceed the 8192-byte TM payload cap, and the tunable constants
hold their specified values. -/
theorem C9_report_size_and_constants (r : Nat) (h : ratsReportSizeGuard r = true) :
    RATS_REPORT_MAX_BYTES r = 7 + (NUM_ECU_REPORTS + 1) * r ∧
    RATS_REPORT_MAX_BYTES r ≤ 8192 ∧
    RATS_REPORT_PERIOD_SECS = 360 ∧
    NUM_ECU_REPORTS = 180 ∧
    LORA_MSG_COUNT = 3 ∧
    LORA_WARMUP_MSG_TIMEOUT = 15 ∧
    FLAG_STALE = 3 ∧
    MCB_RESEND_TIMEOUT = 10 ∧
    ZEPHYR_RESEND_TIMEOUT = 60 := by
  refine ⟨rfl, ?_, rfl, rfl, rfl, rfl, rfl, rfl, rfl⟩
  exact of_decide_eq_true h

/-- Witness for C9 at a concrete ECU record size accepted by the guard. -/
theorem C9_report_size_and_constants_witness :
    ratsReportSizeGuard 45 = true ∧ RATS_REPORT_MAX_BYTES 45 ≤ 8192 :=
  ⟨by decide, (C9_report_size_and_constants 45 (by decide)).2.1⟩
